import Mathlib

set_option maxRecDepth 100000

/-!
Verification of the layout-to-grid reconstruction engine of the Kits
repository ("Treatment Wizard/foundation_codes/TreatmentExtractorFromPDF.py"
and "Treatment Wizard/steps/step2_extract_pdf.py").

The Python source is shallowly embedded: pure functions become Lean
functions on `Nat`/`Int`/`Rat` and `List`, pixel rasters become total
intensity functions, Python exceptions become `Except`, and `None` becomes
`Option.none`.  Floats of the source are modelled as rationals (`ℚ`),
Python `int()` on non-negative values as `Int.toNat ∘ Int.floor`.
-/

/-- An RGB pixel, as read from the rendered page raster
(`img[py, pixel_x]` in the source). -/
def RGB : Type := ℕ × ℕ × ℕ

/-- `rgb_avg = (int(r) + int(g) + int(b)) // 3` from
`find_background_boundary_v3` (TreatmentExtractorFromPDF.py line 257). -/
def rgbAvg (p : RGB) : ℕ := (p.1 + p.2.1 + p.2.2) / 3

/-- The while-loop body of `find_background_boundary_v3`
(TreatmentExtractorFromPDF.py lines 248-274), as a recursion over the list
of raster rows the loop visits, threading the `stage` variable.
Stage 0 = still in the checkbox's white interior, stage 1 = in the
gray/medium zone, stage 2 = in the light-gray background; the boundary is
the first pixel where, the scan being in stage 2, the intensity drops
below 200. -/
def zoneScan (col : ℕ → RGB) : List ℕ → ℕ → Option ℕ
  | [], _ => none
  | py :: rest, stage =>
    if stage = 0 then
      zoneScan col rest (if rgbAvg (col py) < 240 then 1 else 0)
    else if stage = 1 then
      zoneScan col rest (if 200 ≤ rgbAvg (col py) then 2 else 1)
    else
      if rgbAvg (col py) < 200 then some py else zoneScan col rest stage

/-- Rows visited by the upward scan: `start = pixel_y`,
`end = max(0, pixel_y - 150)`, `step = -1`, loop while `py >= end`
(both endpoints inclusive). -/
def upPositions (py : ℕ) : List ℕ :=
  (List.range (py - (py - 150) + 1)).map (fun i => py - i)

/-- Rows visited by the downward scan: `start = pixel_y`,
`end = min(img_height, pixel_y + 150)`, `step = 1`, loop while `py <= end`
(both endpoints inclusive; empty when the start is already past the end). -/
def downPositions (imgHeight py : ℕ) : List ℕ :=
  if py ≤ min imgHeight (py + 150) then
    List.range' py (min imgHeight (py + 150) - py + 1)
  else []

/-- Scan direction of `find_background_boundary_v3`. -/
inductive ScanDir : Type
  | up
  | down

/-- `find_background_boundary_v3(img, pixel_x, pixel_y, direction)`
(TreatmentExtractorFromPDF.py lines 228-274).  The raster is restricted to
the scanned column: `col py` is `img[py, pixel_x]`.  The model reads a
total function, so rows past the raster are answered rather than raising
(the source would raise an `IndexError` at row `img_height`; no claim
below depends on that row). -/
def find_background_boundary_v3 (col : ℕ → RGB) (imgHeight py : ℕ) :
    ScanDir → Option ℕ
  | .up => zoneScan col (upPositions py) 0
  | .down => zoneScan col (downPositions imgHeight py) 0

/-- `int((cb / page_extent) * img_extent)` — PDF coordinate to raster
coordinate (calculate_checkbox_y_ranges lines 316-317).  Python `int()`
truncates; the coordinates at hand are non-negative, so this is a floor. -/
def pdfToPixel (pageExtent : ℚ) (imgExtent : ℕ) (v : ℚ) : ℕ :=
  Int.toNat ⌊v / pageExtent * imgExtent⌋

/-- `(pixel / img_extent) * page_extent` — raster coordinate back to PDF
coordinate (calculate_checkbox_y_ranges lines 329-330). -/
def pixelToPdf (pageExtent : ℚ) (imgExtent : ℕ) (p : ℕ) : ℚ :=
  (p : ℚ) / (imgExtent : ℚ) * pageExtent

/-- The per-checkbox body of `calculate_checkbox_y_ranges`
(TreatmentExtractorFromPDF.py lines 314-338): convert the checkbox center
to raster coordinates, scan up and down with
`find_background_boundary_v3`, fall back to the checkbox's own raster row
when a scan finds no boundary, and convert back to PDF coordinates.
Returns `(y_top, y_bottom)`.  `img y x` is `img[y, x]`. -/
def checkboxBand (img : ℕ → ℕ → RGB) (pageW pageH : ℚ) (imgW imgH : ℕ)
    (cbX cbY : ℚ) : ℚ × ℚ :=
  let px := pdfToPixel pageW imgW cbX
  let py := pdfToPixel pageH imgH cbY
  let col := fun y => img y px
  let top := (find_background_boundary_v3 col imgH py .up).getD py
  let bot := (find_background_boundary_v3 col imgH py .down).getD py
  (pixelToPdf pageH imgH top, pixelToPdf pageH imgH bot)

/-- Gray-scale pixel helper for concrete rasters. -/
def gray (v : ℕ) : RGB := (v, v, v)

/-- The raster column of the spec's end-to-end scenario 1, centred on the
checkbox at raster row 300: solid white (255) for 20 px in each direction,
then gray (170) for 10 px, then light-gray (210) for 40 px, then white
again. -/
def scenario1Col (y : ℕ) : RGB :=
  let d := if 300 ≤ y then y - 300 else 300 - y
  if d ≤ 19 then gray 255
  else if d ≤ 29 then gray 170
  else if d ≤ 69 then gray 210
  else gray 255

/-- The scenario-1 raster: every column equals `scenario1Col`. -/
def scenario1Img (y _x : ℕ) : RGB := scenario1Col y

/-- A raster column holding one table row: dark rule (100) up to row 259
and from row 341 on, light-gray background (210) on rows 260-284 and
316-340, checkbox frame (170) on rows 285-289 and 311-315, and the white
checkbox interior (255) on rows 290-310 around the center at row 300. -/
def oneRowCol (y : ℕ) : RGB :=
  if y ≤ 259 then gray 100
  else if y ≤ 284 then gray 210
  else if y ≤ 289 then gray 170
  else if y ≤ 310 then gray 255
  else if y ≤ 315 then gray 170
  else if y ≤ 340 then gray 210
  else gray 100

/-- A raster whose every column is `oneRowCol`: one shaded row with two
checkboxes side by side (at different X, same Y). -/
def oneRowImg (y _x : ℕ) : RGB := oneRowCol y

/-- A raster column holding two vertically adjacent table rows separated
by a single dark rule pixel at row 350: the first row's background spans
rows 251-349 with a checkbox centred at row 300, the second row's spans
rows 351-449 with a checkbox centred at row 400; dark rules (100) at rows
0-250, 350 and from 450 on. -/
def twoRowCol (y : ℕ) : RGB :=
  if y ≤ 250 then gray 100
  else if y ≤ 289 then gray 210
  else if y ≤ 294 then gray 170
  else if y ≤ 305 then gray 255
  else if y ≤ 310 then gray 170
  else if y ≤ 349 then gray 210
  else if y = 350 then gray 100
  else if y ≤ 389 then gray 210
  else if y ≤ 394 then gray 170
  else if y ≤ 405 then gray 255
  else if y ≤ 410 then gray 170
  else if y ≤ 449 then gray 210
  else gray 100

/-- A raster whose every column is `twoRowCol`. -/
def twoRowImg (y _x : ℕ) : RGB := twoRowCol y

/-- The clustering pass of `find_model_column_x_positions`
(TreatmentExtractorFromPDF.py lines 155-163): a candidate X position is
kept only when no already-kept position lies within 10 units of it. -/
def cluster_x_positions (xs : List ℚ) : List ℚ :=
  xs.foldl (fun acc x => if acc.any (fun ux => |x - ux| < 10) then acc else acc ++ [x]) []

/-- The final pairing pass of `find_model_column_x_positions`
(TreatmentExtractorFromPDF.py lines 167-181): walk the sorted positions;
when the next position is 15-25 units to the right, append BOTH positions
and skip past the pair, otherwise append the current position alone. -/
def pair_merge_pass : List ℚ → List ℚ
  | [] => []
  | [x] => [x]
  | x :: y :: rest =>
    if 15 ≤ y - x ∧ y - x ≤ 25 then x :: y :: pair_merge_pass rest
    else x :: pair_merge_pass (y :: rest)

/-- `find_model_column_x_positions` (TreatmentExtractorFromPDF.py lines
113-182) from the candidate X positions onward: cluster (tolerance 10),
sort ascending, then run the 15-25 pairing pass.  The earlier step of the
function (collecting text spans left of the first service column and
filtering stopwords/dates) only produces the candidate list. -/
def find_model_column_x_positions (candidateXs : List ℚ) : List ℚ :=
  pair_merge_pass ((cluster_x_positions candidateXs).insertionSort (· ≤ ·))

/-- The checkbox shape/size filter used by `calculate_checkbox_y_ranges`
(lines 294-296) and `find_service_column_x_positions` (lines 89-91):
`width > 0 and height > 0` and `0.8 < height/width < 1.2 and
10 < width < 20`. -/
abbrev checkbox_filter_rowband (w h : ℚ) : Prop :=
  0 < w ∧ 0 < h ∧ (0.8 : ℚ) < h / w ∧ h / w < 1.2 ∧ 10 < w ∧ w < 20

/-- The checkbox shape/size filter used by
`map_services_intersection_based` (lines 503-505):
`0.7 < height/width < 1.3 and 8 < width < 25`. -/
abbrev checkbox_filter_mapping (w h : ℚ) : Prop :=
  0 < w ∧ 0 < h ∧ (0.7 : ℚ) < h / w ∧ h / w < 1.3 ∧ 8 < w ∧ w < 25

/-- Prefix test on character lists (helper for the substring test). -/
def isPrefixList : List Char → List Char → Bool
  | [], _ => true
  | _ :: _, [] => false
  | a :: as, b :: bs => a = b && isPrefixList as bs

/-- Contiguous-substring test on character lists, Python's `in`. -/
def containsSub : List Char → List Char → Bool
  | needle, [] => isPrefixList needle []
  | needle, c :: rest => isPrefixList needle (c :: rest) || containsSub needle rest

/-- Python `needle in hay` on strings. -/
def pyContains (needle hay : String) : Bool := containsSub needle.data hay.data

/-- Python `str.lower()` (ASCII suffices for the vocabulary at hand). -/
def pyLower (s : String) : String := ⟨s.data.map Char.toLower⟩

/-- `SERVICE_ORDER` (TreatmentExtractorFromPDF.py lines 17-27): the nine
canonical service keys in output order. -/
def SERVICE_ORDER : List String :=
  ["service_15000", "service_30000", "service_45000", "service_60000",
   "service_90000", "service_120000", "service_180000", "service_240000",
   "service_time_dependent"]

/-- The eight service keys the specification enumerates (spec section 6);
declared for comparison with the source's `SERVICE_ORDER`. -/
def specServiceKeys : List String :=
  ["service_15000", "service_30000", "service_45000", "service_60000",
   "service_90000", "service_120000", "service_180000",
   "service_time_dependent"]

/-- The header-to-service-key chain of `map_services_intersection_based`
(TreatmentExtractorFromPDF.py lines 575-594): an `elif` cascade of
substring tests on the column's header text, `None` when nothing
matches. -/
def x_to_service_of_header (h : String) : Option String :=
  if pyContains "240 tkm" h || pyContains "160 tmls" h then some "service_240000"
  else if pyContains "180 tkm" h || pyContains "120 tmls" h then some "service_180000"
  else if pyContains "120 tkm" h || pyContains "80 tmls" h then some "service_120000"
  else if pyContains "90 tkm" h || pyContains "60 tmls" h then some "service_90000"
  else if pyContains "60 tkm" h || pyContains "40 tmls" h then some "service_60000"
  else if pyContains "45 tkm" h || pyContains "30 tmls" h then some "service_45000"
  else if pyContains "30 tkm" h || pyContains "20 tmls" h then some "service_30000"
  else if pyContains "15 tkm" h || pyContains "10 tmls" h then some "service_15000"
  else if pyContains "Time-dependent" h || pyContains "time-dependent" (pyLower h) then
    some "service_time_dependent"
  else none

/-- The output-ordering loop of `main` (TreatmentExtractorFromPDF.py lines
727-730): keep the keys of the combined mapping in `SERVICE_ORDER`
order. -/
def orderedServiceKeys (present : List String) : List String :=
  SERVICE_ORDER.filter (fun s => present.contains s)

/-- Python `list(set(l))` for strings: the elements of `l` exactly once
each.  CPython's set iteration order is unspecified (hash-based); the
model fixes one de-duplication order and only order-independent facts are
proved about it. -/
def pySetList (l : List String) : List String := l.dedup

/-- The per-model item merge of `merge_services` (step2_extract_pdf.py
line 146): `merged_items[model] = list(set(list1 + list2))`. -/
def mergeModelItems (l1 l2 : List String) : List String := pySetList (l1 ++ l2)

/-- Python `dict.update` as used in `main` (TreatmentExtractorFromPDF.py
lines 717 and 725): for a key present in both dictionaries the updating
dictionary's value replaces the base value wholesale. -/
def dict_update {α : Type} (base upd : String → Option α) : String → Option α :=
  fun k => match upd k with
    | some v => some v
    | none => base k

/-- A per-service mapping (model name to item list) extracted from an oil
document, with one treatment line for service_15000. -/
def oil_demo : String → Option (List (String × List String)) :=
  fun k => if k = "service_15000" then some [("Panamera GTS", ["Fill in engine oil"])] else none

/-- The analogous mapping extracted from an inspection document, same
service key and model, a different treatment line. -/
def insp_demo : String → Option (List (String × List String)) :=
  fun k => if k = "service_15000" then some [("Panamera GTS", ["Check brake pads"])] else none

/-- `CATEGORY_WORDS` (TreatmentExtractorFromPDF.py lines 10-15). -/
def CATEGORY_WORDS : List String :=
  ["Electrics", "Inside", "the", "vehicle", "Outside", "Under", "Engine",
   "compartment", "Additional", "work", "every", "years", "Test", "drive",
   "2", "Measures"]

/-- Whitespace split on character lists, dropping empty pieces (the
accumulator holds the current word reversed). -/
def splitWsAux : List Char → List Char → List (List Char)
  | [], acc => if acc.isEmpty then [] else [acc.reverse]
  | c :: cs, acc =>
    if c.isWhitespace then
      if acc.isEmpty then splitWsAux cs [] else acc.reverse :: splitWsAux cs []
    else splitWsAux cs (c :: acc)

/-- Python `text.split()`: split on whitespace runs, no empty words. -/
def pySplit (s : String) : List String := (splitWsAux s.data []).map (fun l => ⟨l⟩)

/-- Python `sep.join(words)`. -/
def pyJoin (sep : String) (l : List String) : String :=
  ⟨List.intercalate sep.data (l.map String.data)⟩

/-- Python `s.strip()`: drop leading and trailing whitespace. -/
def pyStrip (s : String) : String :=
  ⟨((s.data.dropWhile Char.isWhitespace).reverse.dropWhile Char.isWhitespace).reverse⟩

/-- The word-dropping while-loop of `clean_with_category_logic`
(TreatmentExtractorFromPDF.py lines 32-45): repeatedly drop the first
word while it is empty, does not start with an uppercase letter or a
digit, or is a category word; stop at the first other word. -/
def trimCategoryWords : List String → List String
  | [] => []
  | w :: rest =>
    if w = "" then trimCategoryWords rest
    else if ¬ ((w.data.headD ' ').isUpper ∨ (w.data.headD ' ').isDigit) then
      trimCategoryWords rest
    else if w ∈ CATEGORY_WORDS then trimCategoryWords rest
    else w :: rest

/-- `clean_with_category_logic` (TreatmentExtractorFromPDF.py lines
30-46): split, trim the leading category/non-sentence words, re-join. -/
def clean_with_category_logic (text : String) : String :=
  pyJoin " " (trimCategoryWords (pySplit text))

/-- The row-text selection of `extract_checkboxes_with_y_ranges`
(TreatmentExtractorFromPDF.py lines 406-414): join the checkbox's words,
strip, clean; if the cleaned text is empty or shorter than 10 characters,
fall back to the stripped joined text. -/
def rowText (wordList : List String) : String :=
  let full := pyStrip (pyJoin " " wordList)
  let cleaned := clean_with_category_logic full
  if cleaned = "" ∨ cleaned.length < 10 then full else cleaned

/-- One extracted treatment line as produced by
`extract_checkboxes_with_y_ranges`: the cleaned text together with the
checkbox's PDF position and page index. -/
structure RowItem : Type where
  text : String
  x : ℚ
  y : ℚ
  page : ℕ

/-- The page-derived context the mapping loop of
`map_services_intersection_based` (lines 605-636) runs in: the collected
service-column X positions, the header-derived X-to-service assignment,
the model-column X positions with their display names, and the
pixel-level bullet detector `check_gray_bullet_at_intersection`
(a deterministic function of the rendered document, abstracted here). -/
structure MapCfg : Type where
  serviceXs : List ℚ
  xToService : ℚ → Option String
  modelXs : List ℚ
  modelName : ℚ → String
  bullet : ℚ → ℚ → ℕ → Bool

/-- The accumulating `final_mapping`:
`service_key → model_name → list of treatment lines`. -/
def Grid : Type := String → String → List String

/-- `defaultdict(lambda: defaultdict(list))` (line 605). -/
def emptyGrid : Grid := fun _ _ => []

/-- The guarded append of line 635-636:
`if item["text"] not in final_mapping[service][model_name]:
final_mapping[service][model_name].append(item["text"])`. -/
def appendNew (g : Grid) (sk mn t : String) : Grid := fun a b =>
  if a = sk then
    if b = mn then (if t ∈ g sk mn then g sk mn else g sk mn ++ [t]) else g a b
  else g a b

/-- Python `min(xs, key=lambda x: abs(item_x - x))`: the first element of
minimal distance; `None` on an empty list (where the Python loop never
assigns). -/
def minByDist (xs : List ℚ) (x : ℚ) : Option ℚ :=
  match xs with
  | [] => none
  | a :: rest =>
    some (rest.foldl (fun best c => if |x - c| < |x - best| then c else best) a)

/-- The service assignment of lines 616-624: the closest service-column
X, accepted only within distance 20, then looked up in `x_to_service`
(the loop over `service_x_list` recomputes the same value each iteration,
so its net effect is this single computation). -/
def serviceFor (cfg : MapCfg) (x : ℚ) : Option String :=
  match minByDist cfg.serviceXs x with
  | none => none
  | some cx => if |x - cx| < 20 then cfg.xToService cx else none

/-- The inner loop over model columns (lines 628-636): for every model
column with a gray bullet at the row's Y, append the item's text to the
grid cell if not already present. -/
def processModels (cfg : MapCfg) (sk : String) (it : RowItem) (g : Grid) : Grid :=
  cfg.modelXs.foldl
    (fun g2 mx =>
      if cfg.bullet mx it.y it.page then appendNew g2 sk (cfg.modelName mx) it.text
      else g2)
    g

/-- The per-item body of the mapping loop (lines 611-636). -/
def processItem (cfg : MapCfg) (g : Grid) (it : RowItem) : Grid :=
  match serviceFor cfg it.x with
  | none => g
  | some sk => processModels cfg sk it g

/-- The grid-building loop of `map_services_intersection_based` (lines
605-636): fold the per-item body over the extracted text items, starting
from the empty grid. -/
def map_services_core (cfg : MapCfg) (items : List RowItem) : Grid :=
  items.foldl (processItem cfg) emptyGrid

/-- The services value of step 2: to each service key, an association of
model names to treatment-line lists.  (The `original_header` passthrough
of the new format is omitted; no claim below touches it.) -/
def Services : Type := List (String × List (String × List String))

/-- Page content of a renderable document, at the granularity the
error-flow claims need: what the page loop of
`extract_checkboxes_with_y_ranges` extracts (its per-checkbox geometry is
modelled in detail by `checkboxBand`, `rowText` and `map_services_core`
above) and what the mapping stage derives from it. -/
structure PdfDoc : Type where
  items : List RowItem
  grid : Services

/-- An input file handed to the extractor: either a renderable document,
or a file `fitz.open` cannot parse. -/
inductive PdfFile : Type
  | readable (name : String) (doc : PdfDoc)
  | unreadable (name : String)

/-- `fitz.open(pdf_path)`: the parsed document, or the library's error
naming the file. -/
def fitz_open : PdfFile → Except String PdfDoc
  | .readable _ d => .ok d
  | .unreadable n => .error ("cannot open broken document " ++ n)

/-- `extract_checkboxes_with_y_ranges` (TreatmentExtractorFromPDF.py
lines 359-447) at error-flow granularity: `fitz.open` is its only failure
point and it has no try/except, so an open failure propagates to the
caller. -/
def extract_checkboxes_with_y_ranges (f : PdfFile) :
    Except String (List RowItem) := do
  let doc ← fitz_open f
  pure doc.items

/-- `map_services_intersection_based` (lines 487-661) at error-flow
granularity: it re-opens the document (line 489, again without a
try/except) and builds the grid (modelled in detail by
`map_services_core`). -/
def map_services_intersection_based (f : PdfFile) (_textData : List RowItem) :
    Except String Services := do
  let doc ← fitz_open f
  pure doc.grid

/-- Default-valued lookup in an association list (Python
`d.get(k, default)`). -/
def lookupD {α : Type} (d : List (String × α)) (k : String) (dflt : α) : α :=
  match d.find? (fun p => p.1 == k) with
  | some p => p.2
  | none => dflt

/-- `merge_services` (step2_extract_pdf.py lines 89-154): the union of
the two key sets; per service key, the union of the model sets; per
model, `mergeModelItems` on the two item lists.  Python iterates sets of
keys (order unspecified); the model fixes first-seen order.  (The
source's parameter names say inspection/maintenance, but step 2 actually
passes the oil-derived mapping first.) -/
def merge_services (d1 d2 : Services) : Services :=
  ((d1.map Prod.fst ++ d2.map Prod.fst).dedup).map (fun k =>
    let m1 := lookupD d1 k []
    let m2 := lookupD d2 k []
    (k, ((m1.map Prod.fst ++ m2.map Prod.fst).dedup).map (fun m =>
      (m, mergeModelItems (lookupD m1 m []) (lookupD m2 m [])))))

/-- The try-block body of `extract_from_single_pdf`
(step2_extract_pdf.py lines 59-80): extract, bail out with `None` on no
data, map to services, bail out with `None` on no services. -/
def extract_from_single_pdf_body (f : PdfFile) :
    Except String (Option Services) := do
  let td ← extract_checkboxes_with_y_ranges f
  if td.isEmpty then pure none
  else do
    let s ← map_services_intersection_based f td
    if s.isEmpty then pure none else pure (some s)

/-- `extract_from_single_pdf` (step2_extract_pdf.py lines 48-86): the
whole body runs inside `try`, and `except Exception` turns every raised
error into a printed message and `return None` (lines 82-86). -/
def extract_from_single_pdf (f : PdfFile) : Option Services :=
  match extract_from_single_pdf_body f with
  | .ok r => r
  | .error _ => none

/-- The services content of `extract_treatments_from_pdfs`
(step2_extract_pdf.py lines 157-268): extract each document that was
found, return `None` when neither yields services, keep a single result,
merge two.  (The metadata block records only the found file names.) -/
def extract_treatments_from_pdfs (oil insp : Option PdfFile) :
    Option Services :=
  match oil.bind extract_from_single_pdf, insp.bind extract_from_single_pdf with
  | none, none => none
  | some o, none => some o
  | none, some i => some i
  | some o, some i => some (merge_services o i)

/-- A small renderable inspection document: one treatment line mapped to
one service and model. -/
def demo_doc : PdfDoc :=
  { items := [{ text := "Check brake pads", x := 100, y := 200, page := 0 }],
    grid := [("service_30000", [("Cayenne", ["Check brake pads"])])] }

/-- A corrupt oil-maintenance file. -/
def broken_oil : PdfFile := .unreadable "Oil maintenance.pdf"

/-- A readable inspection file. -/
def good_insp : PdfFile := .readable "Inspection.pdf" demo_doc

/-- A successful `zoneScan` stops at one of the scanned rows. -/
theorem zoneScan_mem (col : ℕ → RGB) :
    ∀ (l : List ℕ) (s p : ℕ), zoneScan col l s = some p → p ∈ l := by
  intro l
  induction l with
  | nil => intro s p h; simp [zoneScan] at h
  | cons a rest ih =>
    intro s p h
    simp only [zoneScan] at h
    split_ifs at h
    all_goals first
      | exact List.mem_cons_of_mem _ (ih _ _ h)
      | (injection h with h3; subst h3; exact List.mem_cons_self _ _)

/-- Started in stage 0 (the checkbox's white interior), the scan can never
stop at the very first row: the stage must first advance. -/
theorem zoneScan_zero_mem_tail (col : ℕ → RGB) (a : ℕ) (l : List ℕ) (p : ℕ)
    (h : zoneScan col (a :: l) 0 = some p) : p ∈ l := by
  have h2 : zoneScan col l (if rgbAvg (col a) < 240 then 1 else 0) = some p := by
    simpa [zoneScan] using h
  exact zoneScan_mem col l _ p h2

/-- A boundary found scanning down lies strictly below the start row. -/
theorem scanDown_lower_bound (col : ℕ → RGB) (imgHeight py p : ℕ)
    (h : find_background_boundary_v3 col imgHeight py .down = some p) :
    py + 1 ≤ p := by
  unfold find_background_boundary_v3 downPositions at h
  split_ifs at h with hle
  · rw [List.range'_succ] at h
    have hp := zoneScan_zero_mem_tail col py _ p h
    exact (List.mem_range'_1.mp hp).1
  · simp [zoneScan] at h

/-- A boundary found scanning up lies at or above... more precisely at or
below the start row. -/
theorem scanUp_upper_bound (col : ℕ → RGB) (imgHeight py p : ℕ)
    (h : find_background_boundary_v3 col imgHeight py .up = some p) :
    p ≤ py := by
  unfold find_background_boundary_v3 at h
  have hp := zoneScan_mem col _ _ _ h
  unfold upPositions at hp
  obtain ⟨i, _, rfl⟩ := List.mem_map.mp hp
  exact Nat.sub_le _ _

/-- C7: for every checkbox whose top and bottom boundaries are both found
by the pixel scan, the band returned in PDF coordinates contains the
checkbox's PDF y-coordinate: `y_top <= checkbox_y <= y_bottom`, through
the PDF-to-raster and raster-to-PDF conversions. -/
theorem c7_band_contains_checkbox_y
    (img : ℕ → ℕ → RGB) (pageW pageH : ℚ) (imgW imgH : ℕ) (cbX cbY : ℚ)
    (px py t b : ℕ)
    (hH : 0 < pageH) (hI : 0 < imgH) (hY : 0 ≤ cbY)
    (hpx : pdfToPixel pageW imgW cbX = px)
    (hpy : pdfToPixel pageH imgH cbY = py)
    (ht : find_background_boundary_v3 (fun y => img y px) imgH py .up = some t)
    (hb : find_background_boundary_v3 (fun y => img y px) imgH py .down = some b) :
    (checkboxBand img pageW pageH imgW imgH cbX cbY).1 ≤ cbY ∧
      cbY ≤ (checkboxBand img pageW pageH imgW imgH cbX cbY).2 := by
  have himgQ : (0 : ℚ) < (imgH : ℚ) := by exact_mod_cast hI
  have himgNe : (imgH : ℚ) ≠ 0 := ne_of_gt himgQ
  have hHNe : pageH ≠ 0 := ne_of_gt hH
  set q := cbY / pageH * (imgH : ℚ) with hqdef
  have hq0 : 0 ≤ q := by
    rw [hqdef]
    exact mul_nonneg (div_nonneg hY (le_of_lt hH)) (Nat.cast_nonneg _)
  have hfloor0 : (0 : ℤ) ≤ ⌊q⌋ := Int.floor_nonneg.mpr hq0
  have hpyq : (py : ℚ) = ((⌊q⌋ : ℤ) : ℚ) := by
    rw [← hpy]
    unfold pdfToPixel
    rw [← hqdef]
    exact_mod_cast Int.toNat_of_nonneg hfloor0
  have hpy2 : (py : ℚ) ≤ q := by
    rw [hpyq]; exact Int.floor_le q
  have hq_lt : q < (py : ℚ) + 1 := by
    rw [hpyq]; exact Int.lt_floor_add_one q
  have htp : t ≤ py := scanUp_upper_bound _ imgH py t ht
  have hbp : py + 1 ≤ b := scanDown_lower_bound _ imgH py b hb
  have hqeq : q / (imgH : ℚ) * pageH = cbY := by
    rw [hqdef]; field_simp; ring
  have hband : checkboxBand img pageW pageH imgW imgH cbX cbY
      = (pixelToPdf pageH imgH t, pixelToPdf pageH imgH b) := by
    simp only [checkboxBand, hpx, hpy, ht, hb, Option.getD_some]
  rw [hband]
  constructor
  · show pixelToPdf pageH imgH t ≤ cbY
    unfold pixelToPdf
    have h1 : (t : ℚ) ≤ q := le_trans (by exact_mod_cast htp) hpy2
    calc (t : ℚ) / (imgH : ℚ) * pageH
        ≤ q / (imgH : ℚ) * pageH := by
          exact mul_le_mul_of_nonneg_right ((div_le_div_iff_of_pos_right himgQ).mpr h1)
            (le_of_lt hH)
      _ = cbY := hqeq
  · show cbY ≤ pixelToPdf pageH imgH b
    unfold pixelToPdf
    have h1 : q ≤ (b : ℚ) := by
      have h2 : (py : ℚ) + 1 ≤ (b : ℚ) := by exact_mod_cast hbp
      exact le_of_lt (lt_of_lt_of_le hq_lt h2)
    calc cbY = q / (imgH : ℚ) * pageH := hqeq.symm
      _ ≤ (b : ℚ) / (imgH : ℚ) * pageH := by
          exact mul_le_mul_of_nonneg_right ((div_le_div_iff_of_pos_right himgQ).mpr h1)
            (le_of_lt hH)

/-- Evaluation helper: `pdfToPixel` at a concrete non-negative floor. -/
theorem pdfToPixel_eval (pageExtent : ℚ) (imgExtent : ℕ) (v : ℚ) (n : ℕ)
    (h : ⌊v / pageExtent * (imgExtent : ℚ)⌋ = (n : ℤ)) :
    pdfToPixel pageExtent imgExtent v = n := by
  unfold pdfToPixel
  rw [h]
  exact Int.toNat_natCast n

/-- C1 (counterexample): on the scenario-1 column — white for 20 px, gray
for 10 px, light-gray (210) for 40 px, then white again — the boundary
scan does NOT return the end of the light-gray span: leaving the
light-gray zone into white never drops the intensity below 200, so no
boundary is found in either direction and the scan returns `None`. -/
theorem c1_scan_misses_lightgray_exit :
    find_background_boundary_v3 scenario1Col 1000 300 .up = none ∧
      find_background_boundary_v3 scenario1Col 1000 300 .down = none :=
  ⟨by decide, by decide⟩

/-- C1 (amended): on the scenario-1 page the boundary scan finds no
boundary within the 150-pixel budget in either direction, so the
resulting row band falls back to the degenerate
`y_top = y_bottom = checkbox_y` instead of the light-gray span. -/
theorem c1_band_degenerates :
    checkboxBand scenario1Img 500 500 1000 1000 100 150 = (150, 150) := by
  have hpx : pdfToPixel 500 1000 (100 : ℚ) = 200 :=
    pdfToPixel_eval 500 1000 100 200 (by norm_num)
  have hpy : pdfToPixel 500 1000 (150 : ℚ) = 300 :=
    pdfToPixel_eval 500 1000 150 300 (by norm_num)
  have hup : find_background_boundary_v3 (fun y => scenario1Img y 200) 1000 300 .up = none := by
    decide
  have hdn : find_background_boundary_v3 (fun y => scenario1Img y 200) 1000 300 .down = none := by
    decide
  simp only [checkboxBand, hpx, hpy, hup, hdn, Option.getD_none, pixelToPdf]
  norm_num [Prod.ext_iff]

/-- C6 (counterexample): two distinct checkboxes at the same Y in the same
shaded row (different X, identical raster columns) both have their top and
bottom boundaries found, yet receive the identical non-degenerate band
`[129.5, 170.5]` — their bands overlap on a whole interval, not just at a
shared boundary point. -/
theorem c6_same_row_bands_coincide :
    find_background_boundary_v3 (fun y => oneRowImg y 100) 1000 300 .up = some 259 ∧
    find_background_boundary_v3 (fun y => oneRowImg y 100) 1000 300 .down = some 341 ∧
    find_background_boundary_v3 (fun y => oneRowImg y 200) 1000 300 .up = some 259 ∧
    find_background_boundary_v3 (fun y => oneRowImg y 200) 1000 300 .down = some 341 ∧
    checkboxBand oneRowImg 500 500 1000 1000 50 150 = (259 / 2, 341 / 2) ∧
    checkboxBand oneRowImg 500 500 1000 1000 100 150 = (259 / 2, 341 / 2) ∧
    ((50 : ℚ) ≠ 100) ∧ ((259 / 2 : ℚ) < 341 / 2) := by
  have hpx1 : pdfToPixel 500 1000 (50 : ℚ) = 100 :=
    pdfToPixel_eval 500 1000 50 100 (by norm_num)
  have hpx2 : pdfToPixel 500 1000 (100 : ℚ) = 200 :=
    pdfToPixel_eval 500 1000 100 200 (by norm_num)
  have hpy : pdfToPixel 500 1000 (150 : ℚ) = 300 :=
    pdfToPixel_eval 500 1000 150 300 (by norm_num)
  have hu1 : find_background_boundary_v3 (fun y => oneRowImg y 100) 1000 300 .up = some 259 := by
    decide
  have hd1 : find_background_boundary_v3 (fun y => oneRowImg y 100) 1000 300 .down = some 341 := by
    decide
  have hu2 : find_background_boundary_v3 (fun y => oneRowImg y 200) 1000 300 .up = some 259 := by
    decide
  have hd2 : find_background_boundary_v3 (fun y => oneRowImg y 200) 1000 300 .down = some 341 := by
    decide
  refine ⟨hu1, hd1, hu2, hd2, ?_, ?_, by norm_num, by norm_num⟩
  · simp only [checkboxBand, hpx1, hpy, hu1, hd1, Option.getD_some, pixelToPdf]
    norm_num [Prod.ext_iff]
  · simp only [checkboxBand, hpx2, hpy, hu2, hd2, Option.getD_some, pixelToPdf]
    norm_num [Prod.ext_iff]

/-- C6 (amended): non-overlap of bands is not guaranteed in general (see
the counterexample), but in the intended configuration — two checkboxes in
two vertically adjacent shaded rows separated by a single sub-200
intensity rule — the two computed bands touch exactly at the shared
boundary, `y_bottom` of the upper band equalling `y_top` of the lower. -/
theorem c6_adjacent_rows_share_only_boundary :
    checkboxBand twoRowImg 500 500 1000 1000 60 150 = (125, 175) ∧
    checkboxBand twoRowImg 500 500 1000 1000 60 200 = (175, 225) ∧
    (checkboxBand twoRowImg 500 500 1000 1000 60 150).2 =
      (checkboxBand twoRowImg 500 500 1000 1000 60 200).1 ∧
    ((125 : ℚ) < 175) ∧ ((175 : ℚ) < 225) := by
  have hpx : pdfToPixel 500 1000 (60 : ℚ) = 120 :=
    pdfToPixel_eval 500 1000 60 120 (by norm_num)
  have hpy1 : pdfToPixel 500 1000 (150 : ℚ) = 300 :=
    pdfToPixel_eval 500 1000 150 300 (by norm_num)
  have hpy2 : pdfToPixel 500 1000 (200 : ℚ) = 400 :=
    pdfToPixel_eval 500 1000 200 400 (by norm_num)
  have hu1 : find_background_boundary_v3 (fun y => twoRowImg y 120) 1000 300 .up = some 250 := by
    decide
  have hd1 : find_background_boundary_v3 (fun y => twoRowImg y 120) 1000 300 .down = some 350 := by
    decide
  have hu2 : find_background_boundary_v3 (fun y => twoRowImg y 120) 1000 400 .up = some 350 := by
    decide
  have hd2 : find_background_boundary_v3 (fun y => twoRowImg y 120) 1000 400 .down = some 450 := by
    decide
  have hb1 : checkboxBand twoRowImg 500 500 1000 1000 60 150 = (125, 175) := by
    simp only [checkboxBand, hpx, hpy1, hu1, hd1, Option.getD_some, pixelToPdf]
    norm_num [Prod.ext_iff]
  have hb2 : checkboxBand twoRowImg 500 500 1000 1000 60 200 = (175, 225) := by
    simp only [checkboxBand, hpx, hpy2, hu2, hd2, Option.getD_some, pixelToPdf]
    norm_num [Prod.ext_iff]
  refine ⟨hb1, hb2, ?_, by norm_num, by norm_num⟩
  rw [hb1, hb2]

/-- C7 (witness): a concrete checkbox on the one-row raster, with both
boundaries found, whose band indeed contains the checkbox's y. -/
theorem c7_band_contains_checkbox_y_witness :
    pdfToPixel 500 1000 (150 : ℚ) = 300 ∧
    find_background_boundary_v3 (fun y => oneRowImg y 100) 1000 300 .up = some 259 ∧
    find_background_boundary_v3 (fun y => oneRowImg y 100) 1000 300 .down = some 341 ∧
    ((checkboxBand oneRowImg 500 500 1000 1000 50 150).1 ≤ 150 ∧
      (150 : ℚ) ≤ (checkboxBand oneRowImg 500 500 1000 1000 50 150).2) := by
  have hpx : pdfToPixel 500 1000 (50 : ℚ) = 100 :=
    pdfToPixel_eval 500 1000 50 100 (by norm_num)
  have hpy : pdfToPixel 500 1000 (150 : ℚ) = 300 :=
    pdfToPixel_eval 500 1000 150 300 (by norm_num)
  have hup : find_background_boundary_v3 (fun y => oneRowImg y 100) 1000 300 .up = some 259 := by
    decide
  have hdn : find_background_boundary_v3 (fun y => oneRowImg y 100) 1000 300 .down = some 341 := by
    decide
  exact ⟨hpy, hup, hdn,
    c7_band_contains_checkbox_y oneRowImg 500 500 1000 1000 50 150 100 300 259 341
      (by norm_num) (by norm_num) (by norm_num) hpx hpy hup hdn⟩

/-- C3 (counterexample): two clustered model-label X positions 18 units
apart are NOT merged into a single representative X — the pairing pass
keeps both, so they remain two model columns; positions 40 units apart
also remain two. -/
theorem c3_pair_kept_not_merged :
    find_model_column_x_positions [100, 118] = [100, 118] ∧
      (find_model_column_x_positions [100, 118]).length = 2 ∧
      find_model_column_x_positions [100, 140] = [100, 140] := by
  refine ⟨?_, ?_, ?_⟩ <;>
    norm_num [find_model_column_x_positions, cluster_x_positions, pair_merge_pass,
      List.insertionSort, List.orderedInsert, abs]

/-- C3 (amended): the 15-25 "merge" branch of
`find_model_column_x_positions` appends both members of the pair, so the
pairing pass is the identity on every position list — adjacent positions
15-25 units apart are both kept as separate model columns, exactly like
positions 40 units apart. -/
theorem c3_pair_pass_identity : ∀ (l : List ℚ), pair_merge_pass l = l := by
  intro l
  induction l using pair_merge_pass.induct with
  | case1 => rfl
  | case2 x => rfl
  | case3 x y rest h ih =>
    simp only [pair_merge_pass, if_pos h, ih]
  | case4 x y rest h ih =>
    simp only [pair_merge_pass, if_neg h, ih]

/-- C8 (counterexample): a 22x22 form-field rectangle satisfies the
claim's 0.7-1.3 / 8-25 checkbox criterion and is accepted by the
intersection-mapping filter, but row-band resolution rejects it (its
filter is 0.8-1.2 / 10-20) — the classification is not uniform across the
pipeline. -/
theorem c8_thresholds_differ :
    checkbox_filter_mapping 22 22 ∧ ¬ checkbox_filter_rowband 22 22 := by
  constructor
  · norm_num
  · intro h
    have h6 : (22 : ℚ) < 20 := h.2.2.2.2.2
    norm_num at h6

/-- C8 (amended): row-band resolution and service-column detection use the
narrower filter (0.8 < h/w < 1.2, 10 < w < 20) while intersection-based
service mapping uses the wider one (0.7 < h/w < 1.3, 8 < w < 25); every
rectangle accepted by the former is accepted by the latter, but not
conversely. -/
theorem c8_rowband_filter_implies_mapping_filter :
    ∀ w h : ℚ, checkbox_filter_rowband w h → checkbox_filter_mapping w h := by
  intro w h hf
  obtain ⟨h1, h2, h3, h4, h5, h6⟩ := hf
  exact ⟨h1, h2, by linarith, by linarith, by linarith, by linarith⟩

/-- C8 (witness): a 15x15 rectangle passes the row-band filter, hence also
the mapping filter. -/
theorem c8_rowband_filter_implies_mapping_filter_witness :
    checkbox_filter_rowband 15 15 ∧ checkbox_filter_mapping 15 15 :=
  ⟨by norm_num, c8_rowband_filter_implies_mapping_filter 15 15 (by norm_num)⟩

/-- C2 (counterexample): in `main`, the two source documents are combined
with `dict.update`, so for a service key present in both, the inspection
mapping replaces the oil mapping wholesale — the merged item list for
(service_15000, "Panamera GTS") is the inspection list alone, not the
union: the oil item is lost. -/
theorem c2_main_update_discards_first_source :
    oil_demo "service_15000" = some [("Panamera GTS", ["Fill in engine oil"])] ∧
    insp_demo "service_15000" = some [("Panamera GTS", ["Check brake pads"])] ∧
    dict_update oil_demo insp_demo "service_15000"
      = some [("Panamera GTS", ["Check brake pads"])] ∧
    "Fill in engine oil" ∉ (["Check brake pads"] : List String) := by
  refine ⟨rfl, rfl, rfl, ?_⟩
  decide

/-- C2 (amended): in step 2's `merge_services`, for a (service_key,
model_name) pair present in both sources the merged item list contains
exactly the items of the two lists, each once (a de-duplicated union);
the order is unspecified (Python `list(set(...))`), and the standalone
`main` path does not union at all (see the counterexample). -/
theorem c2_merge_union_nodup :
    ∀ (l1 l2 : List String) (x : String),
      (x ∈ mergeModelItems l1 l2 ↔ x ∈ l1 ∨ x ∈ l2) ∧ (mergeModelItems l1 l2).Nodup := by
  intro l1 l2 x
  constructor
  · simp [mergeModelItems, pySetList, List.mem_dedup, List.mem_append]
  · exact List.nodup_dedup _

/-- C4 (counterexample): a header containing "240 tkm" is mapped to
`service_240000`, a key the claim's eight-key enumeration does not
contain, and the output-ordering step passes it through to the final
mapping. -/
theorem c4_service_240000_reachable :
    x_to_service_of_header "every 240 tkm / 160 tmls" = some "service_240000" ∧
    orderedServiceKeys ["service_240000"] = ["service_240000"] ∧
    "service_240000" ∉ specServiceKeys := by
  refine ⟨by decide, by decide, by decide⟩

/-- C4 (amended): every service key the header mapping can assign is one
of the NINE keys of `SERVICE_ORDER` (the claim's eight plus
`service_240000`, placed between 180000 and the time-dependent key), and
the final output keys are a sublist of `SERVICE_ORDER` — ordered by
increasing interval with the time-dependent key last. -/
theorem c4_keys_subset_ordered :
    (∀ (h : String) (s : String), x_to_service_of_header h = some s → s ∈ SERVICE_ORDER) ∧
    (∀ present : List String, List.Sublist (orderedServiceKeys present) SERVICE_ORDER) := by
  constructor
  · intro h s hs
    unfold x_to_service_of_header at hs
    split_ifs at hs <;>
      first
        | exact Option.noConfusion hs
        | (injection hs with h2; subst h2; decide)
  · intro present
    exact List.filter_sublist SERVICE_ORDER

/-- C4 (witness): the header "Every 15 tkm or 1 year" is assigned
`service_15000`, which is indeed in `SERVICE_ORDER`. -/
theorem c4_keys_subset_ordered_witness :
    x_to_service_of_header "Every 15 tkm or 1 year" = some "service_15000" ∧
    "service_15000" ∈ SERVICE_ORDER :=
  ⟨by decide,
   c4_keys_subset_ordered.1 "Every 15 tkm or 1 year" "service_15000" (by decide)⟩

/-- C10: for a checkbox whose joined, stripped word text is non-empty,
the emitted row text is never empty; it is the category-trimmed text
exactly when that trimmed text is at least 10 characters long, and the
original joined text whenever trimming leaves an empty string or any
string of 1-9 characters. -/
theorem c10_rowtext_fallback (wordList : List String)
    (hne : pyStrip (pyJoin " " wordList) ≠ "") :
    rowText wordList ≠ "" ∧
    (10 ≤ (clean_with_category_logic (pyStrip (pyJoin " " wordList))).length →
      rowText wordList = clean_with_category_logic (pyStrip (pyJoin " " wordList))) ∧
    ((clean_with_category_logic (pyStrip (pyJoin " " wordList))).length < 10 →
      rowText wordList = pyStrip (pyJoin " " wordList)) := by
  have hr : rowText wordList =
      if clean_with_category_logic (pyStrip (pyJoin " " wordList)) = ""
          ∨ (clean_with_category_logic (pyStrip (pyJoin " " wordList))).length < 10 then
        pyStrip (pyJoin " " wordList)
      else clean_with_category_logic (pyStrip (pyJoin " " wordList)) := rfl
  by_cases hc : clean_with_category_logic (pyStrip (pyJoin " " wordList)) = ""
      ∨ (clean_with_category_logic (pyStrip (pyJoin " " wordList))).length < 10
  · rw [hr, if_pos hc]
    refine ⟨hne, ?_, fun _ => rfl⟩
    intro h10
    rcases hc with he | hlt
    · rw [he] at h10
      exact absurd h10 (by decide)
    · omega
  · rw [hr, if_neg hc]
    push_neg at hc
    obtain ⟨hne2, h10⟩ := hc
    exact ⟨hne2, fun _ => rfl, fun hlt => absurd hlt (by omega)⟩

/-- C10 (witness): the words "Under Replace spark plugs" — the category
word "Under" is trimmed, the result is 19 characters, and the emitted row
text is non-empty. -/
theorem c10_rowtext_fallback_witness :
    pyStrip (pyJoin " " ["Under", "Replace", "spark", "plugs"]) ≠ "" ∧
    rowText ["Under", "Replace", "spark", "plugs"] ≠ "" :=
  ⟨by decide, (c10_rowtext_fallback ["Under", "Replace", "spark", "plugs"] (by decide)).1⟩

/-- `appendNew` only ever adds: existing members stay. -/
theorem appendNew_mem_mono {g : Grid} {sk mn t a b x : String}
    (hx : x ∈ g a b) : x ∈ appendNew g sk mn t a b := by
  unfold appendNew
  by_cases h1 : a = sk
  · subst h1
    by_cases h2 : b = mn
    · subst h2
      by_cases h3 : t ∈ g a b
      · simp [h3, hx]
      · simp only [if_pos rfl, if_neg h3]
        exact List.mem_append_left _ hx
    · simp [h2, hx]
  · simp [h1, hx]

/-- After `appendNew g sk mn t`, the text `t` is in the `(sk, mn)` cell. -/
theorem appendNew_self (g : Grid) (sk mn t : String) :
    t ∈ appendNew g sk mn t sk mn := by
  unfold appendNew
  by_cases h3 : t ∈ g sk mn
  · simp [h3]
  · simp only [if_pos rfl, if_neg h3]
    exact List.mem_append_right _ (List.mem_singleton.mpr rfl)

/-- `appendNew` is the identity when the text is already present. -/
theorem appendNew_of_mem {g : Grid} {sk mn t : String} (h : t ∈ g sk mn) :
    appendNew g sk mn t = g := by
  funext a b
  unfold appendNew
  by_cases h1 : a = sk
  · subst h1
    by_cases h2 : b = mn
    · subst h2; simp [h]
    · simp [h2]
  · simp [h1]

/-- The model-column fold only ever adds: existing members stay. -/
theorem foldl_models_mono (cfg : MapCfg) (sk : String) (it : RowItem) :
    ∀ (l : List ℚ) (g : Grid) (a b x : String), x ∈ g a b →
      x ∈ (l.foldl
        (fun g2 mx =>
          if cfg.bullet mx it.y it.page then appendNew g2 sk (cfg.modelName mx) it.text
          else g2) g) a b := by
  intro l
  induction l with
  | nil => intro g a b x hx; simpa using hx
  | cons mx rest ih =>
    intro g a b x hx
    simp only [List.foldl_cons]
    apply ih
    by_cases hb : cfg.bullet mx it.y it.page = true
    · rw [if_pos hb]; exact appendNew_mem_mono hx
    · rw [if_neg hb]; exact hx

/-- `processItem` only ever adds: existing members stay. -/
theorem processItem_mem_mono (cfg : MapCfg) (it : RowItem) (g : Grid)
    (a b x : String) (hx : x ∈ g a b) : x ∈ processItem cfg g it a b := by
  unfold processItem
  cases hs : serviceFor cfg it.x with
  | none => exact hx
  | some sk =>
    unfold processModels
    exact foldl_models_mono cfg sk it cfg.modelXs g a b x hx

/-- The item fold only ever adds: existing members stay. -/
theorem foldl_items_mono (cfg : MapCfg) :
    ∀ (items : List RowItem) (g : Grid) (a b x : String), x ∈ g a b →
      x ∈ (items.foldl (processItem cfg) g) a b := by
  intro items
  induction items with
  | nil => intro g a b x hx; simpa using hx
  | cons hd tl ih =>
    intro g a b x hx
    simp only [List.foldl_cons]
    exact ih _ a b x (processItem_mem_mono cfg hd g a b x hx)

/-- After the model-column fold, every bullet-marked model column's cell
contains the item's text. -/
theorem foldl_models_adds (cfg : MapCfg) (sk : String) (it : RowItem) :
    ∀ (l : List ℚ) (g : Grid) (mx : ℚ), mx ∈ l →
      cfg.bullet mx it.y it.page = true →
      it.text ∈ (l.foldl
        (fun g2 mx2 =>
          if cfg.bullet mx2 it.y it.page then appendNew g2 sk (cfg.modelName mx2) it.text
          else g2) g) sk (cfg.modelName mx) := by
  intro l
  induction l with
  | nil => intro g mx hmx; exact absurd hmx (List.not_mem_nil _)
  | cons a rest ih =>
    intro g mx hmx hbul
    simp only [List.foldl_cons]
    rcases List.mem_cons.mp hmx with heq | hmem
    · subst heq
      rw [if_pos hbul]
      exact foldl_models_mono cfg sk it rest _ _ _ _ (appendNew_self _ _ _ _)
    · exact ih _ mx hmem hbul

/-- The model-column fold is the identity when every bullet-marked model
column's cell already holds the item's text. -/
theorem foldl_models_noop (cfg : MapCfg) (sk : String) (it : RowItem) :
    ∀ (l : List ℚ) (g : Grid),
      (∀ mx ∈ l, cfg.bullet mx it.y it.page = true →
        it.text ∈ g sk (cfg.modelName mx)) →
      l.foldl
        (fun g2 mx =>
          if cfg.bullet mx it.y it.page then appendNew g2 sk (cfg.modelName mx) it.text
          else g2) g = g := by
  intro l
  induction l with
  | nil => intro g _; rfl
  | cons a rest ih =>
    intro g hall
    simp only [List.foldl_cons]
    by_cases hbul : cfg.bullet a it.y it.page = true
    · rw [if_pos hbul, appendNew_of_mem (hall a (List.mem_cons_self _ _) hbul)]
      exact ih g (fun mx hm hb => hall mx (List.mem_cons_of_mem _ hm) hb)
    · rw [if_neg hbul]
      exact ih g (fun mx hm hb => hall mx (List.mem_cons_of_mem _ hm) hb)

/-- `processItem` is the identity on a grid already holding everything the
item would contribute. -/
theorem processItem_noop (cfg : MapCfg) (g : Grid) (it : RowItem)
    (hall : ∀ sk, serviceFor cfg it.x = some sk →
      ∀ mx ∈ cfg.modelXs, cfg.bullet mx it.y it.page = true →
        it.text ∈ g sk (cfg.modelName mx)) :
    processItem cfg g it = g := by
  unfold processItem
  cases hs : serviceFor cfg it.x with
  | none => rfl
  | some sk =>
    unfold processModels
    exact foldl_models_noop cfg sk it cfg.modelXs g (hall sk hs)

/-- After folding a list of items, each item's contributions are present
in the resulting grid. -/
theorem foldl_items_saturates (cfg : MapCfg) :
    ∀ (items : List RowItem) (g : Grid) (it : RowItem), it ∈ items →
      ∀ sk, serviceFor cfg it.x = some sk →
        ∀ mx ∈ cfg.modelXs, cfg.bullet mx it.y it.page = true →
          it.text ∈ (items.foldl (processItem cfg) g) sk (cfg.modelName mx) := by
  intro items
  induction items with
  | nil => intro g it h; exact absurd h (List.not_mem_nil _)
  | cons hd tl ih =>
    intro g it hit sk hs mx hmx hbul
    simp only [List.foldl_cons]
    rcases List.mem_cons.mp hit with heq | hmem
    · subst heq
      apply foldl_items_mono cfg tl
      unfold processItem
      rw [hs]
      unfold processModels
      exact foldl_models_adds cfg sk it cfg.modelXs g mx hmx hbul
    · exact ih _ it hmem sk hs mx hmx hbul

/-- Folding items over a grid on which each of them acts as the identity
changes nothing. -/
theorem foldl_items_id (cfg : MapCfg) :
    ∀ (items : List RowItem) (g : Grid),
      (∀ it ∈ items, processItem cfg g it = g) →
      items.foldl (processItem cfg) g = g := by
  intro items
  induction items with
  | nil => intro g _; rfl
  | cons hd tl ih =>
    intro g hall
    simp only [List.foldl_cons, hall hd (List.mem_cons_self _ _)]
    exact ih g (fun it h => hall it (List.mem_cons_of_mem _ h))

/-- `appendNew` preserves cell-wise duplicate-freedom. -/
theorem appendNew_nodup {g : Grid} (hg : ∀ a b, (g a b).Nodup)
    (sk mn t : String) : ∀ a b, (appendNew g sk mn t a b).Nodup := by
  intro a b
  unfold appendNew
  by_cases h1 : a = sk
  · subst h1
    by_cases h2 : b = mn
    · subst h2
      by_cases h3 : t ∈ g a b
      · simp [h3, hg a b]
      · simp only [if_pos rfl, if_neg h3]
        exact (hg a b).append (List.nodup_singleton t)
          (fun y hy hy2 => h3 ((List.mem_singleton.mp hy2) ▸ hy))
    · simp [h2, hg a b]
  · simp [h1, hg a b]

/-- The model-column fold preserves cell-wise duplicate-freedom. -/
theorem foldl_models_nodup (cfg : MapCfg) (sk : String) (it : RowItem) :
    ∀ (l : List ℚ) (g : Grid), (∀ a b, (g a b).Nodup) →
      ∀ a b, ((l.foldl
        (fun g2 mx =>
          if cfg.bullet mx it.y it.page then appendNew g2 sk (cfg.modelName mx) it.text
          else g2) g) a b).Nodup := by
  intro l
  induction l with
  | nil => intro g hg a b; simpa using hg a b
  | cons mx rest ih =>
    intro g hg a b
    simp only [List.foldl_cons]
    apply ih
    intro a2 b2
    by_cases hbul : cfg.bullet mx it.y it.page = true
    · rw [if_pos hbul]; exact appendNew_nodup hg sk (cfg.modelName mx) it.text a2 b2
    · rw [if_neg hbul]; exact hg a2 b2

/-- The item fold preserves cell-wise duplicate-freedom. -/
theorem foldl_items_nodup (cfg : MapCfg) :
    ∀ (items : List RowItem) (g : Grid), (∀ a b, (g a b).Nodup) →
      ∀ a b, ((items.foldl (processItem cfg) g) a b).Nodup := by
  intro items
  induction items with
  | nil => intro g hg a b; simpa using hg a b
  | cons hd tl ih =>
    intro g hg a b
    simp only [List.foldl_cons]
    apply ih
    intro a2 b2
    unfold processItem
    cases hs : serviceFor cfg hd.x with
    | none => exact hg a2 b2
    | some sk =>
      unfold processModels
      exact foldl_models_nodup cfg sk hd cfg.modelXs g hg a2 b2

/-- C9: the grid-building step is idempotent under re-processing — running
the same extracted text items through the mapping loop twice yields the
same grid as running them once — and no cell of the resulting grid
contains a repeated treatment-line string. -/
theorem c9_reprocess_idempotent_nodup (cfg : MapCfg) (items : List RowItem) :
    map_services_core cfg (items ++ items) = map_services_core cfg items ∧
    ∀ a b, (map_services_core cfg items a b).Nodup := by
  constructor
  · unfold map_services_core
    rw [List.foldl_append]
    apply foldl_items_id
    intro it hit
    apply processItem_noop
    intro sk hs mx hmx hbul
    exact foldl_items_saturates cfg items emptyGrid it hit sk hs mx hmx hbul
  · intro a b
    unfold map_services_core
    exact foldl_items_nodup cfg items emptyGrid (fun _ _ => List.nodup_nil) a b

/-- C5 (counterexample): for an unreadable oil PDF, the open error raised
by the extraction is caught inside step 2's `extract_from_single_pdf`,
which returns `None` instead of propagating, and the run is not fatal:
with a readable inspection document alongside, the step still returns a
grid. -/
theorem c5_error_swallowed_not_fatal :
    extract_from_single_pdf_body broken_oil
      = Except.error "cannot open broken document Oil maintenance.pdf" ∧
    extract_from_single_pdf broken_oil = none ∧
    extract_treatments_from_pdfs (some broken_oil) (some good_insp)
      = some [("service_30000", [("Cayenne", ["Check brake pads"])])] :=
  ⟨rfl, rfl, rfl⟩

/-- C5 (amended): the low-level extractor does propagate the open error
(naming the file), but step 2's `extract_from_single_pdf` catches every
exception and returns `None` for that file — so no partial grid is
returned for that file, the error reaches no caller beyond that point,
and the step behaves exactly as if the unreadable file were absent. -/
theorem c5_error_caught_no_partial_grid :
    ∀ (n : String) (other : Option PdfFile),
      extract_checkboxes_with_y_ranges (PdfFile.unreadable n)
        = Except.error ("cannot open broken document " ++ n) ∧
      extract_from_single_pdf (PdfFile.unreadable n) = none ∧
      extract_treatments_from_pdfs (some (PdfFile.unreadable n)) other
        = extract_treatments_from_pdfs none other := by
  intro n other
  exact ⟨rfl, rfl, rfl⟩
